import Mathlib

/-!
Verification development for the restaurant order / reservation ledger
(`scripts/reservation_manager.py`, `scripts/order_manager.py`,
`scripts/menu_manager.py`).

The external row store (a Google Sheet reached through `gspread`) is
embedded as an explicit list of records; every stateful operation is a
function from the record list (plus its explicit arguments) to a result
envelope together with the record list after the operation.  Values that
the Python code obtains from ambient effects (`datetime.now()`) are passed
as explicit arguments.  Cells whose Python value may be either a number or
a string (the party-size column, as returned by `get_all_records`) are
embedded as a sum type `Cell`; Python's `int(...)` conversion, which
raises on non-numeric strings, is embedded as the partial function
`cellInt` returning `Option Int`, and an operation whose body raises is
embedded as returning its failure envelope, mirroring the broad
`except Exception` wrapper at each public operation boundary.
-/

namespace Restaurant

/-- Cell value as produced by `gspread.get_all_records`: numeric cells come
back as Python ints, everything else as strings. -/
inductive Cell where
  | num (n : Int)
  | str (s : String)
deriving Repr, DecidableEq

/-- Strip leading and trailing whitespace from a character list (the
character-level form of Python's implicit whitespace tolerance in
`int()`). -/
def trimList (l : List Char) : List Char :=
  ((l.dropWhile Char.isWhitespace).reverse.dropWhile Char.isWhitespace).reverse

/-- Accumulate a decimal digit list into a natural number. -/
def digitsToNat : List Char → Nat → Nat
  | [], acc => acc
  | c :: l, acc => digitsToNat l (acc * 10 + (c.toNat - '0'.toNat))

/-- Parse a non-empty all-digit character list as a natural number. -/
def parseNat (l : List Char) : Option Nat :=
  if l.isEmpty then none
  else if l.all Char.isDigit then some (digitsToNat l 0) else none

/-- Python `int(s)` on a string: optional sign, decimal digits, surrounding
whitespace allowed; anything else raises (`none` here). -/
def pyInt (s : String) : Option Int :=
  match trimList s.toList with
  | '-' :: rest => (parseNat rest).map (fun n => -(n : Int))
  | '+' :: rest => (parseNat rest).map (fun n => (n : Int))
  | t => (parseNat t).map (fun n => (n : Int))

/-- Python `s.startswith(p)` as a character-list prefix test. -/
def startsWithB (s pre : String) : Bool :=
  pre.toList.isPrefixOf s.toList

/-- Python `s.replace('-', '')`: the pattern is a single character, so the
replacement drops every dash. -/
def stripDashes (s : String) : String :=
  String.mk (s.toList.filter (fun c => !(c == '-')))

/-- Python `int(x)` on a cell value: an int is returned unchanged, a string
is parsed (raising, i.e. `none`, when not a decimal literal). -/
def cellInt : Cell → Option Int
  | .num n => some n
  | .str s => pyInt s

/-- Python `str.zfill(w)`: pad on the left with zeros up to width `w`
(never truncates). -/
def zfill (w : Nat) (s : String) : String :=
  if s.length < w then String.mk (List.replicate (w - s.length) '0') ++ s
  else s

/-- One record of the `Reservations` worksheet, mirroring the columns
written by `create_reservation`. -/
structure ResRow where
  resId : String
  customerName : String
  phone : String
  resDate : String
  timeSlot : String
  partySize : Cell
  status : String
  channel : String
  notes : String
  createdAt : String
deriving Repr, DecidableEq

/-- One entry of the availability report built by `query_available_slots`. -/
structure SlotInfo where
  slot : String
  occupied : Int
  remaining : Int
deriving Repr, DecidableEq

/-- The five fixed business time slots (`time_slots` in the source). -/
def time_slots : List String :=
  ["11:00-13:00", "13:00-15:00", "17:00-19:00", "19:00-21:00", "21:00-23:00"]

/-- Filter predicate of `query_available_slots`: date matches and status is
one of 待确认 (pending) / 已确认 (confirmed). -/
def isActiveOn (date : String) (r : ResRow) : Bool :=
  r.resDate == date && (r.status == "待确认" || r.status == "已确认")

/-- The `date_reservations` list of `query_available_slots`. -/
def dateFilter (rows : List ResRow) (date : String) : List ResRow :=
  rows.filter (isActiveOn date)

/-- The initial occupancy dictionary, one zero entry per canonical slot. -/
def initOcc : List (String × Int) := time_slots.map (fun s => (s, 0))

/-- Embedding of `slot_occupancy[slot] += party_size` guarded by
`if slot in slot_occupancy`: entries with the matching key are bumped, a
key that is absent leaves the dictionary unchanged. -/
def addOcc (occ : List (String × Int)) (slot : String) (n : Int) : List (String × Int) :=
  occ.map (fun p => if p.1 == slot then (p.1, p.2 + n) else p)

/-- Membership test of a key in the occupancy dictionary. -/
def hasKey (occ : List (String × Int)) (s : String) : Bool :=
  occ.any (fun p => p.1 == s)

/-- Dictionary lookup (`slot_occupancy[slot]`), defaulting to 0. -/
def lookupOcc (occ : List (String × Int)) (s : String) : Int :=
  ((occ.find? (fun p => p.1 == s)).map Prod.snd).getD 0

/-- Message of the ValueError raised by Python `int()` on a bad literal. -/
def intErr (s : String) : String :=
  "invalid literal for int() with base 10: " ++ s

/-- The aggregation loop of `query_available_slots`: for each filtered
reservation, `int()` is applied to the party-size cell first (raising on a
bad literal) and only then is the slot key checked for membership. -/
def accOcc : List ResRow → List (String × Int) → Except String (List (String × Int))
  | [], occ => .ok occ
  | r :: rs, occ =>
    match cellInt r.partySize with
    | none =>
        .error (intErr (match r.partySize with | .num n => toString n | .str s => s))
    | some n => accOcc rs (addOcc occ r.timeSlot n)

/-- Result envelope of `query_available_slots`: a success envelope carrying
the five slot reports, or a failure envelope carrying the error string. -/
inductive QAvail where
  | ok (slots : List SlotInfo)
  | err (msg : String)
deriving Repr, DecidableEq

/-- Embedding of `query_available_slots(credentials, url, date, max_capacity)`:
filter the rows to the date's pending/confirmed reservations, aggregate
party sizes over the five canonical slots, and report occupied and
remaining (= `max_capacity - occupied`, not clamped) per slot in canonical
order.  A raised exception becomes the failure envelope. -/
def query_available_slots (rows : List ResRow) (date : String) (max_capacity : Int) : QAvail :=
  match accOcc (dateFilter rows date) initOcc with
  | .error e => .err ("查询可用时段失败: " ++ e)
  | .ok occ =>
      .ok (time_slots.map (fun s =>
        { slot := s, occupied := lookupOcc occ s, remaining := max_capacity - lookupOcc occ s }))

/-- State-transformer form of the availability query: the Python function
only ever calls `get_all_records` on the worksheet (a read), so the row
set after the call is the row set before it. -/
def query_available_slots_op (rows : List ResRow) (date : String) (max_capacity : Int) :
    QAvail × List ResRow :=
  (query_available_slots rows date max_capacity, rows)

/-- Result envelope of a creation operation: success carries the minted
identifier (the success envelope also reports the created status), failure
carries the error string. -/
inductive CreateRes where
  | ok (rid : String)
  | err (msg : String)
deriving Repr, DecidableEq

/-- Message of the insufficient-capacity rejection, reporting the numeric
remaining and requested values (source line 147). -/
def insufficientMsg (remaining party_size : Int) : String :=
  "该时段剩余容量不足，剩余 " ++ toString remaining ++ " 人，需要 " ++ toString party_size ++ " 人"

/-- Identifier minted by `create_reservation` (source lines 150-154): strip
the dashes from the reservation date, count the rows whose id starts with
`RES` plus that key, and zero-pad the count plus one to width three. -/
def resMintId (rows : List ResRow) (date : String) : String :=
  "RES" ++ stripDashes date ++
    zfill 3 (toString
      (rows.countP (fun r => startsWithB r.resId ("RES" ++ stripDashes date)) + 1))

/-- Embedding of `create_reservation`: recompute availability (note: the
source calls `query_available_slots` WITHOUT a capacity argument, so the
default ceiling 50 is always used), look the requested slot up in the
report, reject when absent or when remaining < party_size, otherwise mint
`RES + date-with-dashes-stripped + zero-padded count+1` and append the new
confirmed row.  Every failure path leaves the row set unchanged. -/
def create_reservation (rows : List ResRow) (customer_name phone date time_slot : String)
    (party_size : Int) (channel notes created_at : String) : CreateRes × List ResRow :=
  match query_available_slots rows date 50 with
  | .err e => (.err e, rows)
  | .ok slots =>
      match slots.find? (fun si => si.slot == time_slot) with
      | none => (.err ("无效的时间段: " ++ time_slot), rows)
      | some si =>
          if si.remaining < party_size then
            (.err (insufficientMsg si.remaining party_size), rows)
          else
            let rid := resMintId rows date
            let newRow : ResRow :=
              { resId := rid, customerName := customer_name, phone := phone,
                resDate := date, timeSlot := time_slot, partySize := .num party_size,
                status := "已确认", channel := channel, notes := notes,
                createdAt := created_at }
            (.ok rid, rows ++ [newRow])

/-- Embedding of the `for idx, res in enumerate(all_reservations, start=2)`
scan used by `cancel_reservation` and `update_order_status`: index of the
first element satisfying the predicate, counting from `k`. -/
def scanIdx (p : α → Bool) : List α → Nat → Option Nat
  | [], _ => none
  | a :: l, k => if p a then some k else scanIdx p l (k + 1)

/-- Write a new value into the status column of the reservation record at
position `i` (the embedding of `update_cell(row, status_col, ...)`). -/
def updateResStatus : List ResRow → Nat → String → List ResRow
  | [], _, _ => []
  | r :: rs, 0, st => { r with status := st } :: rs
  | r :: rs, n + 1, st => r :: updateResStatus rs n st

/-- Result envelope of `cancel_reservation`. -/
inductive CancelRes where
  | ok
  | err (msg : String)
deriving Repr, DecidableEq

/-- Embedding of `cancel_reservation`: scan for the first row whose
reservation id matches; if none, return the NotFound failure envelope with
the row set unchanged; otherwise write 已取消 (cancelled) into that row's
status cell. -/
def cancel_reservation (rows : List ResRow) (reservation_id : String) :
    CancelRes × List ResRow :=
  match scanIdx (fun r => r.resId == reservation_id) rows 0 with
  | none => (.err ("未找到预订: " ++ reservation_id), rows)
  | some i => (.ok, updateResStatus rows i "已取消")

/-- Python truthiness of an optional string argument: `None` and the empty
string are falsy. -/
def truthy : Option String → Bool
  | none => false
  | some s => !(s == "")

/-- Result envelope of `query_reservation`: success carries the matching
rows and their count (the `total` field), failure carries the error. -/
inductive QRes where
  | ok (data : List ResRow) (total : Nat)
  | err (msg : String)
deriving Repr, DecidableEq

/-- Embedding of `query_reservation`: filter by id when given, else by
phone and date when both are given, else by phone alone, else by date
alone, else fail with the InputValidation envelope. -/
def query_reservation (rows : List ResRow) (reservation_id phone date : Option String) :
    QRes :=
  if truthy reservation_id then
    let res := rows.filter (fun r => r.resId == reservation_id.getD "")
    .ok res res.length
  else if truthy phone && truthy date then
    let res := rows.filter (fun r => r.phone == phone.getD "" && r.resDate == date.getD "")
    .ok res res.length
  else if truthy phone then
    let res := rows.filter (fun r => r.phone == phone.getD "")
    .ok res res.length
  else if truthy date then
    let res := rows.filter (fun r => r.resDate == date.getD "")
    .ok res res.length
  else
    .err "请提供预订ID、电话号码或日期"

/-- One record of the `Orders` worksheet, mirroring the columns written by
`create_order` (the total-amount and line-items cells are opaque here). -/
structure OrdRow where
  ordId : String
  customerName : String
  phone : String
  address : String
  items : String
  totalAmount : String
  orderDate : String
  status : String
  channel : String
  notes : String
deriving Repr, DecidableEq

/-- Write a new value into the status column of the order record at
position `i`. -/
def updateOrdStatus : List OrdRow → Nat → String → List OrdRow
  | [], _, _ => []
  | r :: rs, 0, st => { r with status := st } :: rs
  | r :: rs, n + 1, st => r :: updateOrdStatus rs n st

/-- Result envelope of `update_order_status`: the success envelope reports
the id and the newly written status. -/
inductive UpdRes where
  | ok (oid newStatus : String)
  | err (msg : String)
deriving Repr, DecidableEq

/-- Embedding of `update_order_status`: scan for the first row whose order
id matches; if none, return the NotFound failure envelope with the row set
unchanged; otherwise write `new_status` into that row's status cell
unconditionally (no transition table). -/
def update_order_status (rows : List OrdRow) (order_id new_status : String) :
    UpdRes × List OrdRow :=
  match scanIdx (fun r => r.ordId == order_id) rows 0 with
  | none => (.err ("未找到订单: " ++ order_id), rows)
  | some i => (.ok order_id new_status, updateOrdStatus rows i new_status)

/-- Identifier minted by `create_order` (source lines 46-52): count the
rows whose id starts with `ORD` plus today's `YYYYMMDD` key, and zero-pad
the count plus one to width three. -/
def ordMintId (rows : List OrdRow) (today : String) : String :=
  "ORD" ++ today ++
    zfill 3 (toString (rows.countP (fun r => startsWithB r.ordId ("ORD" ++ today)) + 1))

/-- Embedding of `create_order`: count today's orders by id prefix, mint
`ORD + today + zero-padded count+1`, and append the new pending row.
`today` (from `datetime.now().strftime`) and `now_iso` are the ambient
clock values, passed explicitly. -/
def create_order (rows : List OrdRow) (customer_name phone address items total_amount
    channel notes today now_iso : String) : CreateRes × List OrdRow :=
  let oid := ordMintId rows today
  let newRow : OrdRow :=
    { ordId := oid, customerName := customer_name, phone := phone, address := address,
      items := items, totalAmount := total_amount, orderDate := now_iso,
      status := "待确认", channel := channel, notes := notes }
  (.ok oid, rows ++ [newRow])

/-- One record of the `Menu` worksheet (columns used by `query_menu`). -/
structure MenuItem where
  dishId : String
  name : String
  category : String
  price : String
  available : String
deriving Repr, DecidableEq

/-- The JSON object returned by `query_menu`, with each top-level field
optional so that an envelope that omits a field is representable. -/
structure MenuEnvelope where
  success : Option Bool
  data : Option (List MenuItem)
  total : Option Nat
  error : Option String
deriving Repr, DecidableEq

/-- Success envelope of the menu query. -/
def menuOk (l : List MenuItem) : MenuEnvelope :=
  { success := some true, data := some l, total := some l.length, error := none }

/-- Failure envelope produced by the exception wrapper of `query_menu`. -/
def menuFail (msg : String) : MenuEnvelope :=
  { success := some false, data := none, total := none, error := some msg }

/-- Python `float(s)` restricted to the plain decimal literals that occur
in this system (optional sign, digits, optional fractional part), read as
an exact rational.  Anything else raises (`none` here). -/
def pyFloat (s : String) : Option Rat :=
  let t := s.trim
  let core := if t.startsWith "-" || t.startsWith "+" then t.drop 1 else t
  let sign : Rat := if t.startsWith "-" then -1 else 1
  match core.splitOn "." with
  | [a] => (a.toNat?).map (fun n => sign * (n : Rat))
  | [a, b] =>
      match a.toNat?, b.toNat? with
      | some na, some nb => some (sign * ((na : Rat) + (nb : Rat) / ((10 : Rat) ^ b.length)))
      | _, _ => none
  | _ => none

/-- The price-filter comprehension of `query_menu`: items are visited left
to right, `float()` is applied to each price cell (raising on the first
bad literal), and items at or under the budget are kept. -/
def filterPrices (maxP : Rat) : List MenuItem → Option (List MenuItem)
  | [] => some []
  | it :: rest =>
      match pyFloat it.price with
      | none => none
      | some pr => (filterPrices maxP rest).map (fun l => if pr ≤ maxP then it :: l else l)

/-- Python `needle in haystack` on character lists: the needle occurs as a
contiguous substring (the empty needle always occurs). -/
def infixOfB (needle : List Char) : List Char → Bool
  | [] => needle.isEmpty
  | c :: rest => needle.isPrefixOf (c :: rest) || infixOfB needle rest

/-- Embedding of `query_menu`: filter to sellable items, then dispatch on
the query type.  Category filtering compares against the raw query value
(a missing value matches nothing); price filtering parses the budget and
each price (a raise becomes the failure envelope); name filtering is a
case-insensitive substring test; `all` or no type returns everything; any
other type returns an error object that carries ONLY the error field —
its `success` field is absent, not `false` (source line 56). -/
def query_menu (rows : List MenuItem) (query_type query_value : Option String) :
    MenuEnvelope :=
  let avail := rows.filter (fun it => it.available.toLower == "true")
  if query_type == some "category" then
    menuOk (avail.filter (fun it => query_value == some it.category))
  else if query_type == some "price" then
    match query_value with
    | none => menuFail "查询菜单失败: float() argument must be a string or a number, not NoneType"
    | some v =>
        match pyFloat v with
        | none => menuFail ("查询菜单失败: could not convert string to float: " ++ v)
        | some mp =>
            match filterPrices mp avail with
            | none => menuFail "查询菜单失败: could not convert string to float"
            | some res => menuOk res
  else if query_type == some "name" then
    match query_value with
    | none => menuFail "查询菜单失败: NoneType object has no attribute lower"
    | some v =>
        menuOk (avail.filter (fun it => infixOfB (v.toLower).toList (it.name.toLower).toList))
  else if query_type == some "all" || query_type == none then
    menuOk avail
  else
    { success := none, data := none, total := none,
      error := some ("不支持的查询类型: " ++ query_type.getD "") }

/-!
Specification-side definitions, written from the spec's words, to be
compared with the code-derived definitions above.
-/

/-- Party-size sum over the rows with a given stored slot string. -/
def sumSizes (rows : List ResRow) (s : String) : Int :=
  ((rows.filter (fun r => r.timeSlot == s)).map (fun r => (cellInt r.partySize).getD 0)).sum

/-- Specification aggregation (spec section 3, Invariant): the sum of
party sizes over reservations of the given date with status pending or
confirmed and the given stored slot string. -/
def specOccupied (rows : List ResRow) (date slot : String) : Int :=
  sumSizes (dateFilter rows date) slot

/-- Occupied count that an availability report states for a slot. -/
def occupiedOf (l : List SlotInfo) (s : String) : Int :=
  ((l.find? (fun si => si.slot == s)).map SlotInfo.occupied).getD 0

/-- Remaining capacity that an availability report states for a slot. -/
def remainingOf (l : List SlotInfo) (s : String) : Int :=
  ((l.find? (fun si => si.slot == s)).map SlotInfo.remaining).getD 0

/-- Sequence Allocator as the spec describes it (spec section 4.2): count
the rows whose id starts with `pfx ++ dateKey`, add one, zero-pad to width
three and append to the scoped id. -/
def next_id (pfx dateKey : String) (ids : List String) : String :=
  pfx ++ dateKey ++
    zfill 3 (toString (ids.countP (fun s => startsWithB s (pfx ++ dateKey)) + 1))

/-- Remaining capacity for one slot as reported inside a success envelope,
`none` when the availability query failed. -/
def availAt (rows : List ResRow) (date : String) (C : Int) (s : String) : Option Int :=
  match query_available_slots rows date C with
  | .ok l => some (remainingOf l s)
  | .err _ => none

lemma lookupOcc_cons (k : String) (v : Int) (l : List (String × Int)) (s : String) :
    lookupOcc ((k, v) :: l) s = if k = s then v else lookupOcc l s := by
  by_cases h : k = s
  · simp [lookupOcc, List.find?, h]
  · have hb : (k == s) = false := beq_eq_false_iff_ne.mpr h
    simp [lookupOcc, List.find?, hb, h]

lemma hasKey_cons (k : String) (v : Int) (l : List (String × Int)) (s : String) :
    hasKey ((k, v) :: l) s = ((k == s) || hasKey l s) := by
  simp [hasKey]

lemma addOcc_cons (k : String) (v : Int) (l : List (String × Int)) (t : String) (n : Int) :
    addOcc ((k, v) :: l) t n =
      (if k = t then (k, v + n) else (k, v)) :: addOcc l t n := by
  by_cases h : k = t <;> simp [addOcc, h]

lemma hasKey_addOcc (occ : List (String × Int)) (t : String) (n : Int) (s : String) :
    hasKey (addOcc occ t n) s = hasKey occ s := by
  induction occ with
  | nil => rfl
  | cons p l ih =>
      obtain ⟨k, v⟩ := p
      rw [addOcc_cons]
      by_cases h : k = t <;> simp [hasKey_cons, ih, h]

lemma lookupOcc_addOcc (occ : List (String × Int)) (t : String) (n : Int) (s : String) :
    lookupOcc (addOcc occ t n) s =
      lookupOcc occ s + (if s = t ∧ hasKey occ s = true then n else 0) := by
  induction occ with
  | nil => simp [lookupOcc, addOcc, hasKey]
  | cons p l ih =>
      obtain ⟨k, v⟩ := p
      rw [addOcc_cons]
      by_cases hkt : k = t
      · subst hkt
        by_cases hks : k = s
        · subst hks
          simp [lookupOcc_cons, hasKey_cons]
        · rw [if_pos rfl, lookupOcc_cons, lookupOcc_cons, if_neg hks, if_neg hks,
            hasKey_cons, ih]
          have hsk : ¬ s = k := fun h => hks h.symm
          simp [hsk]
      · rw [if_neg hkt]
        by_cases hks : k = s
        · subst hks
          rw [lookupOcc_cons, lookupOcc_cons, if_pos rfl, if_pos rfl, hasKey_cons]
          have hst : ¬ k = t → ¬ (k = t ∧ (decide (k = k) || hasKey l k) = true) :=
            fun h hc => h hc.1
          simp [hkt]
        · rw [lookupOcc_cons, lookupOcc_cons, if_neg hks, if_neg hks, hasKey_cons, ih]
          have hsk : ¬ s = k := fun h => hks h.symm
          simp [hsk, hks]

lemma sumSizes_nil (s : String) : sumSizes [] s = 0 := rfl

lemma sumSizes_cons (r : ResRow) (rs : List ResRow) (s : String) :
    sumSizes (r :: rs) s =
      (if r.timeSlot = s then (cellInt r.partySize).getD 0 else 0) + sumSizes rs s := by
  by_cases h : r.timeSlot = s
  · simp [sumSizes, List.filter_cons, h]
  · have hb : (r.timeSlot == s) = false := beq_eq_false_iff_ne.mpr h
    simp [sumSizes, List.filter_cons, hb, h]

lemma accOcc_ok (rows : List ResRow) (occ : List (String × Int))
    (h : ∀ r ∈ rows, (cellInt r.partySize).isSome = true) :
    ∃ occ2, accOcc rows occ = .ok occ2 ∧
      ∀ s, lookupOcc occ2 s =
        lookupOcc occ s + (if hasKey occ s = true then sumSizes rows s else 0) := by
  induction rows generalizing occ with
  | nil =>
      refine ⟨occ, rfl, fun s => ?_⟩
      simp [sumSizes_nil]
  | cons r rs ih =>
      have hr : (cellInt r.partySize).isSome = true := h r (by simp)
      obtain ⟨n, hn⟩ := Option.isSome_iff_exists.mp hr
      have hrs : ∀ x ∈ rs, (cellInt x.partySize).isSome = true :=
        fun x hx => h x (by simp [hx])
      obtain ⟨occ2, heq, hlook⟩ := ih (addOcc occ r.timeSlot n) hrs
      refine ⟨occ2, ?_, fun s => ?_⟩
      · simp [accOcc, hn, heq]
      · rw [hlook s, lookupOcc_addOcc, hasKey_addOcc, sumSizes_cons, hn]
        by_cases hk : hasKey occ s = true
        · by_cases hst : s = r.timeSlot
          · subst hst
            simp [hk]
            omega
          · have hts : ¬ r.timeSlot = s := fun e => hst e.symm
            simp [hk, hst, hts]
        · simp [hk]

lemma initOcc_mem (s : String) (hs : s ∈ time_slots) :
    hasKey initOcc s = true ∧ lookupOcc initOcc s = 0 := by
  simp only [time_slots, List.mem_cons, List.not_mem_nil, or_false] at hs
  rcases hs with rfl | rfl | rfl | rfl | rfl <;> exact ⟨by decide, by decide⟩

lemma query_eq (rows : List ResRow) (date : String) (C : Int)
    (hall : ∀ r ∈ dateFilter rows date, (cellInt r.partySize).isSome = true) :
    query_available_slots rows date C =
      .ok (time_slots.map (fun s =>
        { slot := s, occupied := specOccupied rows date s,
          remaining := C - specOccupied rows date s })) := by
  obtain ⟨occ2, heq, hlook⟩ := accOcc_ok (dateFilter rows date) initOcc hall
  have hstep : query_available_slots rows date C =
      .ok (time_slots.map (fun s =>
        { slot := s, occupied := lookupOcc occ2 s, remaining := C - lookupOcc occ2 s })) := by
    unfold query_available_slots
    rw [heq]
  rw [hstep]
  congr 1
  refine List.map_congr_left (fun s hs => ?_)
  obtain ⟨h1, h2⟩ := initOcc_mem s hs
  rw [hlook s, h1, h2, if_pos rfl]
  simp [specOccupied]

lemma find_slot (F G : String → Int) (s : String) (hs : s ∈ time_slots) :
    ((time_slots.map
        (fun t => ({ slot := t, occupied := F t, remaining := G t } : SlotInfo))).find?
      (fun si => si.slot == s)) =
      some { slot := s, occupied := F s, remaining := G s } := by
  simp only [time_slots, List.mem_cons, List.not_mem_nil, or_false] at hs
  rcases hs with rfl | rfl | rfl | rfl | rfl <;> simp [time_slots, List.find?]

lemma occupiedOf_map (F G : String → Int) (s : String) (hs : s ∈ time_slots) :
    occupiedOf (time_slots.map
        (fun t => ({ slot := t, occupied := F t, remaining := G t } : SlotInfo))) s = F s := by
  rw [occupiedOf, find_slot F G s hs]
  rfl

lemma remainingOf_map (F G : String → Int) (s : String) (hs : s ∈ time_slots) :
    remainingOf (time_slots.map
        (fun t => ({ slot := t, occupied := F t, remaining := G t } : SlotInfo))) s = G s := by
  rw [remainingOf, find_slot F G s hs]
  rfl

lemma scanIdx_eq_none {α : Type} (p : α → Bool) (l : List α) (k : Nat) :
    scanIdx p l k = none ↔ ∀ a ∈ l, p a = false := by
  induction l generalizing k with
  | nil => simp [scanIdx]
  | cons a t ih =>
      by_cases h : p a = true
      · simp [scanIdx, h]
      · simp only [Bool.not_eq_true] at h
        simp [scanIdx, h, ih]

lemma scanIdx_some {α : Type} (p : α → Bool) (l : List α) (k i : Nat)
    (h : scanIdx p l k = some i) :
    k ≤ i ∧ ∃ a, l.get? (i - k) = some a ∧ p a = true := by
  induction l generalizing k with
  | nil => simp [scanIdx] at h
  | cons a t ih =>
      by_cases hp : p a = true
      · simp [scanIdx, hp] at h
        subst h
        exact ⟨Nat.le_refl _, a, by simp, hp⟩
      · simp only [Bool.not_eq_true] at hp
        simp [scanIdx, hp] at h
        obtain ⟨hk, b, hb, hpb⟩ := ih (k + 1) h
        refine ⟨by omega, b, ?_, hpb⟩
        have hik : i - k = (i - (k + 1)) + 1 := by omega
        rw [hik]
        simpa using hb

lemma updateResStatus_get (rows : List ResRow) (i : Nat) (st : String) (r : ResRow)
    (h : rows.get? i = some r) :
    (updateResStatus rows i st).get? i = some { r with status := st } := by
  induction rows generalizing i with
  | nil => simp at h
  | cons a t ih =>
      cases i with
      | zero =>
          simp only [List.get?_cons_zero, Option.some_inj] at h
          subst h
          rfl
      | succ n =>
          have h' : t.get? n = some r := by simpa using h
          simpa [updateResStatus] using ih n h'

lemma mem_updateResStatus (rows : List ResRow) (i : Nat) (st : String) (x : ResRow)
    (hx : x ∈ updateResStatus rows i st) :
    x ∈ rows ∨ ∃ r, rows.get? i = some r ∧ x = { r with status := st } := by
  induction rows generalizing i with
  | nil => simp [updateResStatus] at hx
  | cons a t ih =>
      cases i with
      | zero =>
          simp only [updateResStatus, List.mem_cons] at hx
          rcases hx with rfl | hx
          · exact Or.inr ⟨a, by simp, rfl⟩
          · exact Or.inl (by simp [hx])
      | succ n =>
          simp only [updateResStatus, List.mem_cons] at hx
          rcases hx with rfl | hx
          · exact Or.inl (by simp)
          · rcases ih n hx with h | ⟨r, hr, hxr⟩
            · exact Or.inl (by simp [h])
            · exact Or.inr ⟨r, by simpa using hr, hxr⟩

lemma specOccupied_cons (x : ResRow) (xs : List ResRow) (d s : String) :
    specOccupied (x :: xs) d s =
      (if isActiveOn d x = true ∧ x.timeSlot = s then (cellInt x.partySize).getD 0 else 0) +
        specOccupied xs d s := by
  unfold specOccupied dateFilter
  by_cases ha : isActiveOn d x = true
  · rw [List.filter_cons, if_pos (by simpa using ha), sumSizes_cons]
    by_cases hts : x.timeSlot = s <;> simp [ha, hts]
  · rw [List.filter_cons, if_neg (by simpa using ha)]
    simp [ha]

lemma specOccupied_update (rows : List ResRow) (i : Nat) (r : ResRow) (d s : String)
    (hget : rows.get? i = some r) :
    specOccupied (updateResStatus rows i "已取消") d s =
      specOccupied rows d s -
        (if isActiveOn d r = true ∧ r.timeSlot = s then (cellInt r.partySize).getD 0 else 0) := by
  induction rows generalizing i with
  | nil => simp at hget
  | cons a t ih =>
      cases i with
      | zero =>
          simp only [List.get?_cons_zero, Option.some_inj] at hget
          rw [show updateResStatus (a :: t) 0 "已取消" = { a with status := "已取消" } :: t
            from rfl, specOccupied_cons, specOccupied_cons, hget]
          by_cases hra : isActiveOn d r = true ∧ r.timeSlot = s
          · simp [isActiveOn, hra]
          · simp [isActiveOn, hra]
      | succ n =>
          have hget' : t.get? n = some r := by simpa using hget
          rw [show updateResStatus (a :: t) (n + 1) "已取消" = a :: updateResStatus t n "已取消"
            from rfl]
          rw [specOccupied_cons, specOccupied_cons, ih n hget']
          omega

lemma scanIdx_updateResStatus (rows : List ResRow) (i : Nat) (st x : String) (k : Nat) :
    scanIdx (fun r => r.resId == x) (updateResStatus rows i st) k =
      scanIdx (fun r => r.resId == x) rows k := by
  induction rows generalizing i k with
  | nil => rfl
  | cons a t ih =>
      cases i with
      | zero => rfl
      | succ n =>
          by_cases hp : (a.resId == x) = true
          · simp [scanIdx, updateResStatus, hp]
          · simp only [Bool.not_eq_true] at hp
            simp [scanIdx, updateResStatus, hp, ih]

lemma updateResStatus_idem (rows : List ResRow) (i : Nat) (st : String) :
    updateResStatus (updateResStatus rows i st) i st = updateResStatus rows i st := by
  induction rows generalizing i with
  | nil => rfl
  | cons a t ih =>
      cases i with
      | zero => rfl
      | succ n => simp [updateResStatus, ih]

lemma updateOrdStatus_get (rows : List OrdRow) (i : Nat) (st : String) (r : OrdRow)
    (h : rows.get? i = some r) :
    (updateOrdStatus rows i st).get? i = some { r with status := st } := by
  induction rows generalizing i with
  | nil => simp at h
  | cons a t ih =>
      cases i with
      | zero =>
          simp only [List.get?_cons_zero, Option.some_inj] at h
          subst h
          rfl
      | succ n =>
          have h' : t.get? n = some r := by simpa using h
          simpa [updateOrdStatus] using ih n h'

lemma create_eq (rows : List ResRow) (cn ph date slot ch nt ca : String) (n : Int)
    (hs : slot ∈ time_slots)
    (hall : ∀ r ∈ dateFilter rows date, (cellInt r.partySize).isSome = true) :
    create_reservation rows cn ph date slot n ch nt ca =
      if 50 - specOccupied rows date slot < n then
        (.err (insufficientMsg (50 - specOccupied rows date slot) n), rows)
      else
        (.ok (resMintId rows date), rows ++
          [{ resId := resMintId rows date, customerName := cn, phone := ph,
             resDate := date, timeSlot := slot, partySize := .num n, status := "已确认",
             channel := ch, notes := nt, createdAt := ca }]) := by
  have hq := query_eq rows date 50 hall
  have hfind := find_slot (fun t => specOccupied rows date t)
    (fun t => 50 - specOccupied rows date t) slot hs
  simp only [create_reservation, hq, hfind]

/-- Demonstration reservation row: 47 confirmed guests in slot 19:00-21:00
on 2024-01-20 (the capacity scenario of spec section 8). -/
def demoRow47 : ResRow :=
  { resId := "RES20240120001", customerName := "张三", phone := "13800000000",
    resDate := "2024-01-20", timeSlot := "19:00-21:00", partySize := .num 47,
    status := "已确认", channel := "电话", notes := "", createdAt := "2024-01-10T09:00:00" }

/-- Demonstration row set holding only `demoRow47`. -/
def demo47 : List ResRow := [demoRow47]

/-- Demonstration row whose stored slot string matches no canonical slot
and whose party-size cell is not parseable as an integer. -/
def badRow : ResRow :=
  { resId := "RES20240120009", customerName := "李四", phone := "13900000000",
    resDate := "2024-01-20", timeSlot := "20:00-22:00", partySize := .str "abc",
    status := "已确认", channel := "网站", notes := "", createdAt := "2024-01-11T09:00:00" }

/-- Demonstration order book: one pending order. -/
def demoOrders : List OrdRow :=
  [{ ordId := "ORD20240116001", customerName := "王五", phone := "13700000000",
     address := "街道1号", items := "[]", totalAmount := "88",
     orderDate := "2024-01-16T12:00:00", status := "待确认", channel := "电话", notes := "" }]

/-- C7: the spec's wire contract makes every failure envelope carry
success = false together with an error string, and the claim asserts this
in particular for the unknown-query-type InputValidation failure of the
menu query.  The code for that branch (menu_manager line 56) emits an
object holding only the error field: its success field is absent, not
false — the code diverges from the documented envelope shape. -/
theorem c7_menu_unknown_type_envelope :
    query_menu [] (some "foobar") none =
      { success := none, data := none, total := none,
        error := some "不支持的查询类型: foobar" } ∧
    (query_menu [] (some "foobar") none).success ≠ some false ∧
    (menuFail "查询菜单失败: x").success = some false := by
  refine ⟨by decide, by decide, by decide⟩

/-- C10: a row whose date matches and whose status is confirmed but whose
party-size cell is not an integer literal makes the availability
computation return a failure envelope (the `int()` conversion runs before
the slot-membership check, so the malformed-data tolerance covers only
unrecognized slot strings), and admission against that date fails the same
way. -/
theorem c10_unparseable_party_size :
    query_available_slots [badRow] "2024-01-20" 50 =
      QAvail.err "查询可用时段失败: invalid literal for int() with base 10: abc" ∧
    time_slots.contains badRow.timeSlot = false ∧
    cellInt badRow.partySize = none ∧
    isActiveOn "2024-01-20" badRow = true ∧
    (create_reservation [badRow] "赵六" "13600000000" "2024-01-20" "19:00-21:00" 2 "电话" ""
        "2024-01-12T09:00:00").1 =
      CreateRes.err "查询可用时段失败: invalid literal for int() with base 10: abc" ∧
    (create_reservation [badRow] "赵六" "13600000000" "2024-01-20" "19:00-21:00" 2 "电话" ""
        "2024-01-12T09:00:00").2 = [badRow] := by
  refine ⟨by decide, by decide, by decide, by decide, by decide, by decide⟩

/-- C3 counterexample: the claim says the admission operation checks the
caller-supplied ceiling C, so with occupancy 47 and C = 100 a request for
5 should be admitted (remaining 53).  The code's `create_reservation`
accepts no capacity argument and always recomputes availability at the
default 50, so the same request is rejected with remaining 3. -/
theorem c3_admission_ignores_caller_capacity :
    availAt demo47 "2024-01-20" 100 "19:00-21:00" = some 53 ∧
    (5 : Int) ≤ 53 ∧
    (create_reservation demo47 "李四" "13900000000" "2024-01-20" "19:00-21:00" 5 "电话" ""
        "2024-01-12T09:00:00").1 = CreateRes.err (insufficientMsg 3 5) := by
  refine ⟨by decide, by decide, by decide⟩

/-- C1: for every date, canonical slot and requested size, admission is
rejected with the insufficient-capacity message (carrying the numeric
remaining and requested values) exactly when the request exceeds the
remaining capacity computed from the pre-admission row set, and admitted
when it fits; in particular, against 47 confirmed guests out of 50 in slot
19:00-21:00 on 2024-01-20, requesting 5 is rejected with remaining 3 and
requesting 3 is admitted. -/
theorem c1_admission_capacity_check (rows : List ResRow)
    (cn ph date slot ch nt ca : String) (n : Int)
    (hs : slot ∈ time_slots)
    (hall : ∀ r ∈ dateFilter rows date, (cellInt r.partySize).isSome = true) :
    ((create_reservation rows cn ph date slot n ch nt ca).1 =
        CreateRes.err (insufficientMsg (50 - specOccupied rows date slot) n) ↔
      n > 50 - specOccupied rows date slot) ∧
    (n ≤ 50 - specOccupied rows date slot →
      (create_reservation rows cn ph date slot n ch nt ca).1 =
        CreateRes.ok (resMintId rows date)) ∧
    (create_reservation demo47 "李四" "13900000000" "2024-01-20" "19:00-21:00" 5 "电话" ""
        "2024-01-12T09:00:00").1 = CreateRes.err (insufficientMsg 3 5) ∧
    (create_reservation demo47 "李四" "13900000000" "2024-01-20" "19:00-21:00" 3 "电话" ""
        "2024-01-12T09:00:00").1 = CreateRes.ok "RES20240120002" := by
  have hce := create_eq rows cn ph date slot ch nt ca n hs hall
  refine ⟨?_, ?_, by decide, by decide⟩
  · by_cases hlt : 50 - specOccupied rows date slot < n
    · rw [hce, if_pos hlt]
      simpa using hlt
    · rw [hce, if_neg hlt]
      simpa using hlt
  · intro hle
    have hlt : ¬ 50 - specOccupied rows date slot < n := by omega
    rw [hce, if_neg hlt]

/-- C2: for every date and capacity ceiling, over any row set whose
relevant party-size cells parse, the availability report lists the five
canonical slots in order, the occupied count of each slot equals the
specification sum (party sizes of pending/confirmed rows of that date
whose stored slot string equals the slot — cancelled rows and rows with
unrecognized slot strings contribute nothing and raise no error), and
remaining = ceiling - occupied with no floor clamp. -/
theorem c2_availability_aggregation (rows : List ResRow) (date : String) (C : Int)
    (hall : ∀ r ∈ dateFilter rows date, (cellInt r.partySize).isSome = true) :
    query_available_slots rows date C =
      QAvail.ok (time_slots.map (fun s =>
        { slot := s, occupied := specOccupied rows date s,
          remaining := C - specOccupied rows date s })) :=
  query_eq rows date C hall

/-- C3 amended: the admission path accepts no capacity argument — it
always recomputes availability at the built-in default ceiling 50, so it
rejects for capacity exactly when 50 minus the slot's occupancy is below
the request; the caller-supplied ceiling only affects the standalone
availability query, whose remaining figure is C minus the occupancy. -/
theorem c3_amended_default_capacity_only (rows : List ResRow)
    (cn ph date slot ch nt ca : String) (n C : Int)
    (hs : slot ∈ time_slots)
    (hall : ∀ r ∈ dateFilter rows date, (cellInt r.partySize).isSome = true) :
    ((create_reservation rows cn ph date slot n ch nt ca).1 =
        CreateRes.err (insufficientMsg (50 - specOccupied rows date slot) n) ↔
      50 - specOccupied rows date slot < n) ∧
    availAt rows date C slot = some (C - specOccupied rows date slot) := by
  have hce := create_eq rows cn ph date slot ch nt ca n hs hall
  constructor
  · by_cases hlt : 50 - specOccupied rows date slot < n
    · rw [hce, if_pos hlt]
      simpa using hlt
    · rw [hce, if_neg hlt]
      simpa using hlt
  · have h1 : availAt rows date C slot =
        some (remainingOf (time_slots.map (fun s =>
          { slot := s, occupied := specOccupied rows date s,
            remaining := C - specOccupied rows date s })) slot) := by
      unfold availAt
      rw [query_eq rows date C hall]
    rw [h1, remainingOf_map (fun t => specOccupied rows date t)
      (fun t => C - specOccupied rows date t) slot hs]

lemma resMintId_eq_next_id (rows : List ResRow) (date : String) :
    resMintId rows date = next_id "RES" (stripDashes date) (rows.map ResRow.resId) := by
  unfold resMintId next_id
  rw [List.countP_map]
  rfl

lemma ordMintId_eq_next_id (rows : List OrdRow) (today : String) :
    ordMintId rows today = next_id "ORD" today (rows.map OrdRow.ordId) := by
  unfold ordMintId next_id
  rw [List.countP_map]
  rfl

/-- C4: the Sequence Allocator applied to a row set with N ids sharing the
scoped prefix yields the zero-padded rendering of N+1 (N up to 999); with
no matching rows, prefix ORD and key 20240116 give ORD20240116001; the
reservation path scopes by the reservation date with dashes stripped, the
order path by the current date. -/
theorem c4_sequence_allocator :
    (∀ (pfx k : String) (ids : List String) (N : Nat),
        ids.countP (fun s => startsWithB s (pfx ++ k)) = N → N ≤ 999 →
        next_id pfx k ids = pfx ++ k ++ zfill 3 (toString (N + 1))) ∧
    next_id "ORD" "20240116" [] = "ORD20240116001" ∧
    (∀ (rows : List ResRow) (date : String),
        resMintId rows date = next_id "RES" (stripDashes date) (rows.map ResRow.resId)) ∧
    (∀ (rows : List OrdRow) (cn ph adr it ta ch nt today ni : String),
        (create_order rows cn ph adr it ta ch nt today ni).1 =
          CreateRes.ok (next_id "ORD" today (rows.map OrdRow.ordId))) ∧
    (∀ (rows : List ResRow) (cn ph date slot ch nt ca : String) (n : Int) (rid : String),
        (create_reservation rows cn ph date slot n ch nt ca).1 = CreateRes.ok rid →
        rid = next_id "RES" (stripDashes date) (rows.map ResRow.resId)) := by
  refine ⟨?_, by decide, resMintId_eq_next_id, ?_, ?_⟩
  · intro pfx k ids N hN _
    rw [next_id, hN]
  · intro rows cn ph adr it ta ch nt today ni
    rw [show (create_order rows cn ph adr it ta ch nt today ni).1 =
      CreateRes.ok (ordMintId rows today) from rfl, ordMintId_eq_next_id]
  · intro rows cn ph date slot ch nt ca n rid hok
    rw [← resMintId_eq_next_id]
    cases hq : query_available_slots rows date 50 with
    | err e => simp [create_reservation, hq] at hok
    | ok slots =>
        cases hf : slots.find? (fun si => si.slot == slot) with
        | none => simp [create_reservation, hq, hf] at hok
        | some si =>
            by_cases hlt : si.remaining < n
            · simp [create_reservation, hq, hf, hlt] at hok
            · simp [create_reservation, hq, hf, hlt] at hok
              exact hok.symm

/-- C6: the status update fails with the NotFound envelope exactly when no
row carries the identifier; otherwise it succeeds and writes the new
status into the status column unconditionally, with no transition table —
in particular an order taken pending, completed, pending succeeds both
times and ends stored as pending. -/
theorem c6_set_status_unconditional :
    (∀ (rows : List OrdRow) (oid st : String),
        ((update_order_status rows oid st).1 = UpdRes.err ("未找到订单: " ++ oid) ↔
          ∀ r ∈ rows, r.ordId ≠ oid)) ∧
    (∀ (rows : List OrdRow) (oid st : String) (i : Nat),
        scanIdx (fun r => r.ordId == oid) rows 0 = some i →
        (update_order_status rows oid st).1 = UpdRes.ok oid st ∧
        (update_order_status rows oid st).2 = updateOrdStatus rows i st ∧
        ∃ r, rows.get? i = some r ∧
          (updateOrdStatus rows i st).get? i = some { r with status := st }) ∧
    (update_order_status demoOrders "ORD20240116001" "已完成").1 =
      UpdRes.ok "ORD20240116001" "已完成" ∧
    (update_order_status (update_order_status demoOrders "ORD20240116001" "已完成").2
        "ORD20240116001" "待确认").1 = UpdRes.ok "ORD20240116001" "待确认" ∧
    ((update_order_status (update_order_status demoOrders "ORD20240116001" "已完成").2
        "ORD20240116001" "待确认").2).map OrdRow.status = ["待确认"] := by
  refine ⟨?_, ?_, by decide, by decide, by decide⟩
  · intro rows oid st
    cases hscan : scanIdx (fun r => r.ordId == oid) rows 0 with
    | none =>
        have hmsg : (update_order_status rows oid st).1 =
            UpdRes.err ("未找到订单: " ++ oid) := by
          simp [update_order_status, hscan]
        rw [hmsg]
        constructor
        · intro _ r hr he
          have hfalse := (scanIdx_eq_none _ rows 0).mp hscan r hr
          rw [he] at hfalse
          simp at hfalse
        · intro _
          rfl
    | some i =>
        have hmsg : (update_order_status rows oid st).1 = UpdRes.ok oid st := by
          simp [update_order_status, hscan]
        rw [hmsg]
        obtain ⟨-, a, ha, hpa⟩ := scanIdx_some _ rows 0 i hscan
        have hmem : a ∈ rows := List.get?_mem (by simpa using ha)
        constructor
        · intro h
          exact absurd h (by simp)
        · intro hforall
          exact absurd (beq_iff_eq.mp hpa) (hforall a hmem)
  · intro rows oid st i hscan
    obtain ⟨-, a, ha, hpa⟩ := scanIdx_some _ rows 0 i hscan
    have ha' : rows.get? i = some a := by simpa using ha
    exact ⟨by simp [update_order_status, hscan], by simp [update_order_status, hscan],
      a, ha', updateOrdStatus_get rows i st a ha'⟩

/-- C8: the reservation query with both phone and date returns exactly the
rows matching both (the intersection of the single-criterion filters),
with a phone alone it returns that phone's rows across all dates, and with
none of id, phone or date it returns the InputValidation failure
envelope. -/
theorem c8_query_reservation_filters :
    (∀ (rows : List ResRow) (ph dt : String), ph ≠ "" → dt ≠ "" →
        query_reservation rows none (some ph) (some dt) =
          QRes.ok (rows.filter (fun r => r.phone == ph && r.resDate == dt))
            (rows.filter (fun r => r.phone == ph && r.resDate == dt)).length ∧
        rows.filter (fun r => r.phone == ph && r.resDate == dt) =
          (rows.filter (fun r => r.phone == ph)).filter (fun r => r.resDate == dt)) ∧
    (∀ (rows : List ResRow) (ph : String), ph ≠ "" →
        query_reservation rows none (some ph) none =
          QRes.ok (rows.filter (fun r => r.phone == ph))
            (rows.filter (fun r => r.phone == ph)).length) ∧
    (∀ rows : List ResRow,
        query_reservation rows none none none = QRes.err "请提供预订ID、电话号码或日期") := by
  refine ⟨?_, ?_, fun rows => rfl⟩
  · intro rows ph dt hph hdt
    have hbp : (ph == "") = false := beq_eq_false_iff_ne.mpr hph
    have hbd : (dt == "") = false := beq_eq_false_iff_ne.mpr hdt
    constructor
    · simp [query_reservation, truthy, hbp, hbd]
    · rw [List.filter_filter]
      exact List.filter_congr (fun x _ => Bool.and_comm _ _)
  · intro rows ph hph
    have hbp : (ph == "") = false := beq_eq_false_iff_ne.mpr hph
    simp [query_reservation, truthy, hbp]

/-- C9: the availability computation writes nothing (its after-state is
its before-state), a rejected admission — invalid slot or insufficient
capacity alike — leaves the row set unchanged, an admitted one performs
exactly one append, and a cancellation or status update performs at most
one cell write (the failure paths leave the row set unchanged). -/
theorem c9_frame_effects :
    (∀ (rows : List ResRow) (d : String) (C : Int),
        (query_available_slots_op rows d C).2 = rows) ∧
    (∀ (rows : List ResRow) (cn ph d ts ch nt ca : String) (n : Int) (e : String),
        (create_reservation rows cn ph d ts n ch nt ca).1 = CreateRes.err e →
        (create_reservation rows cn ph d ts n ch nt ca).2 = rows) ∧
    (∀ (rows : List ResRow) (cn ph d ts ch nt ca : String) (n : Int) (rid : String),
        (create_reservation rows cn ph d ts n ch nt ca).1 = CreateRes.ok rid →
        ∃ newRow, (create_reservation rows cn ph d ts n ch nt ca).2 = rows ++ [newRow]) ∧
    (∀ (rows : List ResRow) (rid e : String),
        (cancel_reservation rows rid).1 = CancelRes.err e →
        (cancel_reservation rows rid).2 = rows) ∧
    (∀ (rows : List ResRow) (rid : String),
        (cancel_reservation rows rid).1 = CancelRes.ok →
        ∃ i, scanIdx (fun r => r.resId == rid) rows 0 = some i ∧
          (cancel_reservation rows rid).2 = updateResStatus rows i "已取消") ∧
    (∀ (rows : List OrdRow) (oid st e : String),
        (update_order_status rows oid st).1 = UpdRes.err e →
        (update_order_status rows oid st).2 = rows) := by
  refine ⟨fun rows d C => rfl, ?_, ?_, ?_, ?_, ?_⟩
  · intro rows cn ph d ts ch nt ca n e herr
    cases hq : query_available_slots rows d 50 with
    | err e2 => simp [create_reservation, hq]
    | ok slots =>
        cases hf : slots.find? (fun si => si.slot == ts) with
        | none => simp [create_reservation, hq, hf]
        | some si =>
            by_cases hlt : si.remaining < n
            · simp [create_reservation, hq, hf, hlt]
            · simp [create_reservation, hq, hf, hlt] at herr
  · intro rows cn ph d ts ch nt ca n rid hok
    cases hq : query_available_slots rows d 50 with
    | err e2 => simp [create_reservation, hq] at hok
    | ok slots =>
        cases hf : slots.find? (fun si => si.slot == ts) with
        | none => simp [create_reservation, hq, hf] at hok
        | some si =>
            by_cases hlt : si.remaining < n
            · simp [create_reservation, hq, hf, hlt] at hok
            · exact ⟨{ resId := resMintId rows d, customerName := cn, phone := ph, resDate := d, timeSlot := ts, partySize := Cell.num n, status := "已确认", channel := ch, notes := nt, createdAt := ca }, by simp [create_reservation, hq, hf, hlt]⟩
  · intro rows rid e herr
    cases hscan : scanIdx (fun r => r.resId == rid) rows 0 with
    | none => simp [cancel_reservation, hscan]
    | some i => simp [cancel_reservation, hscan] at herr
  · intro rows rid hok
    cases hscan : scanIdx (fun r => r.resId == rid) rows 0 with
    | none => simp [cancel_reservation, hscan] at hok
    | some i => exact ⟨i, rfl, by simp [cancel_reservation, hscan]⟩
  · intro rows oid st e herr
    cases hscan : scanIdx (fun r => r.ordId == oid) rows 0 with
    | none => simp [update_order_status, hscan]
    | some i => simp [update_order_status, hscan] at herr

/-- C5: cancelling a pending or confirmed reservation with positive party
size p makes the next availability computation report an occupied count
for its slot exactly p smaller (and strictly smaller) than before, and the
cancellation is idempotent: a second cancel of the same id succeeds,
leaves the row set equal to the state after the first cancel, and hence
every subsequently computed availability identical. -/
theorem c5_cancellation_frees_capacity (rows : List ResRow) (i : Nat) (r : ResRow)
    (p C : Int)
    (hfind : scanIdx (fun x => x.resId == r.resId) rows 0 = some i)
    (hget : rows.get? i = some r)
    (hst : r.status = "待确认" ∨ r.status = "已确认")
    (hslot : r.timeSlot ∈ time_slots)
    (hp : cellInt r.partySize = some p)
    (hpos : 0 < p)
    (hall : ∀ x ∈ dateFilter rows r.resDate, (cellInt x.partySize).isSome = true) :
    (cancel_reservation rows r.resId).1 = CancelRes.ok ∧
    (∃ l0 l1,
      query_available_slots rows r.resDate C = QAvail.ok l0 ∧
      query_available_slots (cancel_reservation rows r.resId).2 r.resDate C = QAvail.ok l1 ∧
      occupiedOf l1 r.timeSlot = occupiedOf l0 r.timeSlot - p ∧
      occupiedOf l1 r.timeSlot < occupiedOf l0 r.timeSlot) ∧
    (cancel_reservation (cancel_reservation rows r.resId).2 r.resId).1 = CancelRes.ok ∧
    (cancel_reservation (cancel_reservation rows r.resId).2 r.resId).2 =
      (cancel_reservation rows r.resId).2 ∧
    (∀ (d : String) (K : Int),
      query_available_slots
          (cancel_reservation (cancel_reservation rows r.resId).2 r.resId).2 d K =
        query_available_slots (cancel_reservation rows r.resId).2 d K) := by
  have hcancel : cancel_reservation rows r.resId =
      (CancelRes.ok, updateResStatus rows i "已取消") := by
    simp [cancel_reservation, hfind]
  have hall1 : ∀ x ∈ dateFilter (updateResStatus rows i "已取消") r.resDate,
      (cellInt x.partySize).isSome = true := by
    intro x hx
    obtain ⟨hmem, hactx⟩ := List.mem_filter.mp hx
    rcases mem_updateResStatus rows i "已取消" x hmem with hm | ⟨r2, hr2, rfl⟩
    · exact hall x (List.mem_filter.mpr ⟨hm, hactx⟩)
    · exfalso
      simp [isActiveOn] at hactx
  have hact : isActiveOn r.resDate r = true := by
    rcases hst with h | h <;> simp [isActiveOn, h]
  have hocc : specOccupied (updateResStatus rows i "已取消") r.resDate r.timeSlot =
      specOccupied rows r.resDate r.timeSlot - p := by
    rw [specOccupied_update rows i r _ _ hget, if_pos ⟨hact, rfl⟩, hp]
    rfl
  have hfind1 : scanIdx (fun x => x.resId == r.resId) (updateResStatus rows i "已取消") 0 =
      some i := by
    rw [scanIdx_updateResStatus]
    exact hfind
  have hcancel2 : cancel_reservation (updateResStatus rows i "已取消") r.resId =
      (CancelRes.ok, updateResStatus (updateResStatus rows i "已取消") i "已取消") := by
    simp [cancel_reservation, hfind1]
  refine ⟨by rw [hcancel], ?_, ?_, ?_, ?_⟩
  · have hq1 : query_available_slots (cancel_reservation rows r.resId).2 r.resDate C =
        QAvail.ok (time_slots.map (fun s =>
          { slot := s,
            occupied := specOccupied (updateResStatus rows i "已取消") r.resDate s,
            remaining := C - specOccupied (updateResStatus rows i "已取消") r.resDate s })) := by
      rw [hcancel]
      exact query_eq _ r.resDate C hall1
    refine ⟨_, _, query_eq rows r.resDate C hall, hq1, ?_, ?_⟩
    · rw [occupiedOf_map _ _ _ hslot, occupiedOf_map _ _ _ hslot, hocc]
    · rw [occupiedOf_map _ _ _ hslot, occupiedOf_map _ _ _ hslot, hocc]
      omega
  · rw [hcancel, hcancel2]
  · rw [hcancel, hcancel2, updateResStatus_idem]
  · intro d K
    rw [hcancel, hcancel2, updateResStatus_idem]

/-- Witness for C1: against the 47-of-50 scenario row set, a request for 3
guests in slot 19:00-21:00 is admitted with the next minted identifier. -/
theorem c1_admission_capacity_check_witness :
    (create_reservation demo47 "王二" "13500000000" "2024-01-20" "19:00-21:00" 3 "电话" ""
        "2024-01-13T09:00:00").1 = CreateRes.ok (resMintId demo47 "2024-01-20") :=
  (c1_admission_capacity_check demo47 "王二" "13500000000" "2024-01-20" "19:00-21:00" "电话" ""
    "2024-01-13T09:00:00" 3 (by decide) (by decide)).2.1 (by decide)

/-- Witness for C2: the aggregation equation evaluated on the scenario row
set at ceiling 50. -/
theorem c2_availability_aggregation_witness :
    query_available_slots demo47 "2024-01-20" 50 =
      QAvail.ok (time_slots.map (fun s =>
        { slot := s, occupied := specOccupied demo47 "2024-01-20" s,
          remaining := 50 - specOccupied demo47 "2024-01-20" s })) :=
  c2_availability_aggregation demo47 "2024-01-20" 50 (by decide)

/-- Witness for the amended C3: the availability query honors the caller
ceiling 100 on the scenario row set. -/
theorem c3_amended_default_capacity_only_witness :
    availAt demo47 "2024-01-20" 100 "19:00-21:00" =
      some (100 - specOccupied demo47 "2024-01-20" "19:00-21:00") :=
  (c3_amended_default_capacity_only demo47 "a" "b" "2024-01-20" "19:00-21:00" "c" "d" "e" 5 100
    (by decide) (by decide)).2

/-- Witness for C4: one existing id with the scoped prefix gives sequence
number 2. -/
theorem c4_sequence_allocator_witness :
    next_id "RES" "20240120" ["RES20240120001"] = "RES20240120002" := by
  rw [c4_sequence_allocator.1 "RES" "20240120" ["RES20240120001"] 1 (by decide) (by decide)]
  decide

/-- Witness for C5: cancelling the 47-guest reservation drops the slot's
occupied count by 47 on the next availability computation. -/
theorem c5_cancellation_frees_capacity_witness :
    (cancel_reservation demo47 demoRow47.resId).1 = CancelRes.ok ∧
    (∃ l0 l1,
      query_available_slots demo47 demoRow47.resDate 50 = QAvail.ok l0 ∧
      query_available_slots (cancel_reservation demo47 demoRow47.resId).2 demoRow47.resDate 50 =
        QAvail.ok l1 ∧
      occupiedOf l1 demoRow47.timeSlot = occupiedOf l0 demoRow47.timeSlot - 47 ∧
      occupiedOf l1 demoRow47.timeSlot < occupiedOf l0 demoRow47.timeSlot) ∧
    (cancel_reservation (cancel_reservation demo47 demoRow47.resId).2 demoRow47.resId).2 =
      (cancel_reservation demo47 demoRow47.resId).2 := by
  have h := c5_cancellation_frees_capacity demo47 0 demoRow47 47 50 (by decide) (by decide)
    (Or.inr rfl) (by decide) (by decide) (by decide) (by decide)
  exact ⟨h.1, h.2.1, h.2.2.2.1⟩

/-- Witness for C6: the demonstration order is updated to a concrete new
status through the matched scan index. -/
theorem c6_set_status_unconditional_witness :
    (update_order_status demoOrders "ORD20240116001" "已取消").1 =
      UpdRes.ok "ORD20240116001" "已取消" :=
  (c6_set_status_unconditional.2.1 demoOrders "ORD20240116001" "已取消" 0 (by decide)).1

/-- Witness for C8: the phone-and-date query on the scenario row set
returns the doubly filtered rows. -/
theorem c8_query_reservation_filters_witness :
    query_reservation demo47 none (some "13800000000") (some "2024-01-20") =
      QRes.ok (demo47.filter (fun r => r.phone == "13800000000" && r.resDate == "2024-01-20"))
        (demo47.filter (fun r => r.phone == "13800000000" && r.resDate == "2024-01-20")).length :=
  (c8_query_reservation_filters.1 demo47 "13800000000" "2024-01-20" (by decide) (by decide)).1

/-- Witness for C9: an admission rejected for an invalid time slot leaves
the row set unchanged. -/
theorem c9_frame_effects_witness :
    (create_reservation demo47 "王二" "13500000000" "2024-01-20" "bad-slot" 2 "电话" ""
        "2024-01-13T09:00:00").2 = demo47 :=
  c9_frame_effects.2.1 demo47 "王二" "13500000000" "2024-01-20" "bad-slot" "电话" ""
    "2024-01-13T09:00:00" 2 "无效的时间段: bad-slot" (by decide)

end Restaurant
